import Mathlib

/-!
# Verification of `restore_credentials.py`

A shallow embedding of the batch credential-update script for Tableau
Server (`src/restore_credentials.py`).  Python strings are modelled as
`String`, Python dicts whose insertion order matters as association
lists (`List (key × value)`), Python exceptions as an explicit
`PyError` error channel (`Except` / `Option PyError`), and the HTTP
collaborator as an oracle function supplied to the embedded operations.
Network requests and `print` calls are recorded in an event trace so
that temporal claims about the dispatcher can be stated.
-/

namespace RestoreCredentials

/-- The Python exceptions the script can raise, with their messages. -/
inductive PyError where
  | typeError (msg : String)
  | valueError (msg : String)
  | keyError (key : String)
  | indexError (msg : String)
  deriving Repr, DecidableEq

/-- One CSV row as produced by `csv.DictReader`.  The script only ever
checks `updated_username` / `updated_password` for `None` (Python's
`csv.DictReader` fills missing trailing cells with `restval = None`),
so those two fields are modelled as `Option String`; the remaining
columns are consumed as strings. -/
structure Row where
  site_id : String
  site_name : String
  site_content_url : String
  datasource_id : String
  datasource_name : String
  datasource_content_url : String
  connection_id : String
  connection_type : String
  connection_server_address : String
  connection_server_port : String
  connection_username : String
  updated_username : Option String
  updated_password : Option String
  deriving Repr, DecidableEq

/-- One entry of a data source's `connections` list in the nested
`updates` dictionary (lines 251-255 of the source). -/
structure ConnUpdate where
  connection_id : String
  username : String
  password : String
  deriving Repr, DecidableEq

/-- The value stored under a `datasource_id` key (lines 246-250). -/
structure DsEntry where
  datasource_name : String
  connections : List ConnUpdate
  deriving Repr, DecidableEq

/-- The value stored under a `site_content_url` key (lines 240-245). -/
structure SiteEntry where
  site_id : String
  site_name : String
  datasources : List (String × DsEntry)
  deriving Repr, DecidableEq

/-- The in-memory `updates` dictionary: `site_content_url` to site
entry, insertion-ordered like a Python dict. -/
abbrev UpdatePlan := List (String × SiteEntry)

/-- Update the value stored at the first occurrence of key `k`
(Python's `d[k] = f(d[k])` on a dict whose keys are unique). -/
def alUpdate (k : String) (f : β → β) : List (String × β) → List (String × β)
  | [] => []
  | (k', v) :: rest =>
    if k' = k then (k', f v) :: rest else (k', v) :: alUpdate k f rest

/-- Python's `len(v)` on a value that may be `None`: `len(None)`
raises `TypeError`. -/
def pyLen : Option String → Except PyError Nat
  | none => .error (.typeError "object of type NoneType has no len()")
  | some s => .ok s.length

/-- Python's `v is None`. -/
def pyIsNone : Option String → Bool
  | none => true
  | some _ => false

/-- Error message of line 237 of the source. -/
def usernameMsg : String :=
  "Updated username must be provided, even if you are not changing the value."

/-- Error message of line 239 of the source. -/
def passwordMsg : String :=
  "Updated password must be provided, even if you are not changing the value."

/-- One row-validation condition of the source
(`if len(row[f]) == 0 or row[f] is None: raise ValueError(msg)`),
with Python's left-to-right evaluation: `len` runs first, so a `None`
value raises `TypeError` before `is None` is ever tested. -/
def validateField (v : Option String) (msg : String) : Except PyError Unit := do
  let n ← pyLen v
  if n == 0 then
    .error (.valueError msg)
  else if pyIsNone v then
    .error (.valueError msg)
  else
    .ok ()

/-- Lines 240-245: insert the site entry if `site_content_url` is not
yet a key of `updates`. -/
def ensureSite (updates : UpdatePlan) (row : Row) : UpdatePlan :=
  if (updates.lookup row.site_content_url).isSome then
    updates
  else
    updates ++ [(row.site_content_url,
      { site_id := row.site_id, site_name := row.site_name, datasources := [] })]

/-- The site-entry part of lines 246-250: insert an empty data-source
entry if `datasource_id` is not yet a key of the site's `datasources`. -/
def ensureDsSite (row : Row) (se : SiteEntry) : SiteEntry :=
  if (se.datasources.lookup row.datasource_id).isSome then se
  else
    let fresh : DsEntry :=
      { datasource_name := row.datasource_name, connections := [] }
    { se with datasources := se.datasources ++ [(row.datasource_id, fresh)] }

/-- Lines 246-250: insert the data-source entry under the row's site if
`datasource_id` is not yet a key (the site key is present by the time
this line runs, so the no-match case of `alUpdate` is dead). -/
def ensureDatasource (updates : UpdatePlan) (row : Row) : UpdatePlan :=
  alUpdate row.site_content_url (ensureDsSite row) updates

/-- The `{connection_id, username, password}` dictionary a row
contributes (lines 252-254).  By the time it is built the two
`updated_*` fields have passed validation, so they are `some`;
`getD ""` extracts the validated string. -/
def rowConnUpdate (row : Row) : ConnUpdate :=
  { connection_id := row.connection_id,
    username := row.updated_username.getD "",
    password := row.updated_password.getD "" }

/-- The data-source part of lines 251-255: append this row's
connection update to the entry's `connections` list. -/
def appendConnDs (row : Row) (de : DsEntry) : DsEntry :=
  { de with connections := de.connections ++ [rowConnUpdate row] }

/-- The site part of lines 251-255. -/
def appendConnSite (row : Row) (se : SiteEntry) : SiteEntry :=
  { se with datasources :=
      alUpdate row.datasource_id (appendConnDs row) se.datasources }

/-- Lines 251-255: append this row's connection update to the row's
site / data source. -/
def appendConnection (updates : UpdatePlan) (row : Row) : UpdatePlan :=
  alUpdate row.site_content_url (appendConnSite row) updates

/-- The body of the `for row in reader` loop (lines 235-255): validate
the two credential fields, then merge the row into `updates`. -/
def applyRow (updates : UpdatePlan) (row : Row) : Except PyError UpdatePlan := do
  validateField row.updated_username usernameMsg
  validateField row.updated_password passwordMsg
  .ok (appendConnection (ensureDatasource (ensureSite updates row) row) row)

/-- The whole CSV-reading pass of `update_datasources_from_csv`
(lines 231-255): fold the rows of the file into the `updates`
dictionary, stopping at the first raised exception. -/
def buildUpdates (rows : List Row) : Except PyError UpdatePlan :=
  rows.foldlM applyRow []

/-- Total number of connection updates stored in one site entry. -/
def siteConnCount (se : SiteEntry) : Nat :=
  (se.datasources.map (fun p => p.2.connections.length)).sum

/-- Total number of connection updates in an `UpdatePlan`, summed over
all sites and data sources. -/
def planCount (plan : UpdatePlan) : Nat :=
  (plan.map (fun p => siteConnCount p.2)).sum

/-! ## Password redaction (line 276 of the source) -/

/-- Python's `s[0]` on a string: `IndexError` when the string is empty. -/
def pyStrFirst (s : String) : Except PyError Char :=
  match s.data with
  | [] => .error (.indexError "string index out of range")
  | c :: _ => .ok c

/-- Python's `s[-1]` on a string: `IndexError` when the string is empty. -/
def pyStrLast (s : String) : Except PyError Char :=
  match s.data.getLast? with
  | none => .error (.indexError "string index out of range")
  | some c => .ok c

/-- The redaction expression of line 276:
`connection['password'][0] + '...' + connection['password'][-1]`. -/
def redactPassword (p : String) : Except PyError String := do
  let a ← pyStrFirst p
  let b ← pyStrLast p
  .ok (String.singleton a ++ "..." ++ String.singleton b)

/-! ## The update dispatcher (lines 256-284 of the source) -/

/-- The `print` output lines of the dispatcher, kept structured so the
trace can be inspected; the string formatting of the source is a pure
function of the carried fields. -/
inductive LogLine where
  | collecting (path : String)
  | siteHeader (siteName : String)
  | success (dsName username redacted : String)
  | failure (dsName siteName body : String)
  deriving Repr, DecidableEq

/-- The externally observable steps of a run: sign-in and sign-out
requests, `PUT .../connections/{id}` requests with their payload, and
printed lines.  `signOut` models `logout`; `build_datasources_csv`
issues it but (as proved below) `update_datasources_from_csv` never
does. -/
inductive Event where
  | signIn (contentUrl : String)
  | signOut
  | put (siteId dsId connId userName password : String) (embedPassword : Bool)
  | print (line : LogLine)
  deriving Repr, DecidableEq

/-- The parsed JSON body the server returns to one `PUT` connection
update: whether it contains a `connection` key, and its raw text used
in the error log line. -/
structure PutResponse where
  hasConnection : Bool
  bodyText : String

/-- The HTTP collaborator for a dispatcher run: the response to the
`PUT` at `/sites/{siteId}/datasources/{dsId}/connections/{connId}`. -/
abbrev PutOracle := String → String → String → PutResponse

/-- The inner `for connection in datasource_data['connections']` loop
(lines 263-284): issue the `PUT`, build the success message (redacting
the password — an `IndexError` here would escape), replace it by the
error message when the response lacks `connection`, print it.  Returns
the events emitted, and the exception that aborted the loop, if any. -/
def runConnections (oracle : PutOracle) (siteId siteName dsName dsId : String) :
    List ConnUpdate → List Event × Option PyError
  | [] => ([], none)
  | c :: cs =>
    let putEvent := Event.put siteId dsId c.connection_id c.username c.password true
    let resp := oracle siteId dsId c.connection_id
    match redactPassword c.password with
    | .error e => ([putEvent], some e)
    | .ok red =>
      let line :=
        if resp.hasConnection then LogLine.success dsName c.username red
        else LogLine.failure dsName siteName resp.bodyText
      let rest := runConnections oracle siteId siteName dsName dsId cs
      (putEvent :: Event.print line :: rest.1, rest.2)

/-- The `for datasource_id, datasource_data in ...` loop (line 262). -/
def runDatasources (oracle : PutOracle) (siteId siteName : String) :
    List (String × DsEntry) → List Event × Option PyError
  | [] => ([], none)
  | (dsId, de) :: rest =>
    match runConnections oracle siteId siteName de.datasource_name dsId de.connections with
    | (evs, some e) => (evs, some e)
    | (evs, none) =>
      let r := runDatasources oracle siteId siteName rest
      (evs ++ r.1, r.2)

/-- The `for site_content_url, site_data in updates.items()` loop
(lines 256-284): print the site header, sign in to the site, run every
update of the site, move to the next site.  No sign-out is issued. -/
def runSites (oracle : PutOracle) : UpdatePlan → List Event × Option PyError
  | [] => ([], none)
  | (url, se) :: rest =>
    let pre := [Event.print (LogLine.siteHeader se.site_name), Event.signIn url]
    match runDatasources oracle se.site_id se.site_name se.datasources with
    | (evs, some e) => (pre ++ evs, some e)
    | (evs, none) =>
      let r := runSites oracle rest
      (pre ++ evs ++ r.1, r.2)

/-- The function `update_datasources_from_csv(path_to_csv)` (lines 213-284), with
the parsed CSV rows and the HTTP collaborator made explicit: print the
`Collecting data...` line, build the `updates` dictionary (raising on
the first invalid row, before any network traffic), then dispatch
every update. -/
def update_datasources_from_csv (path : String) (rows : List Row)
    (oracle : PutOracle) : List Event × Option PyError :=
  let collecting := Event.print (LogLine.collecting path)
  match buildUpdates rows with
  | .error e => ([collecting], some e)
  | .ok plan =>
    let r := runSites oracle plan
    (collecting :: r.1, r.2)

/-- The `put` events a plan should generate: one per connection update,
in plan order. -/
def allPuts (plan : UpdatePlan) : List Event :=
  plan.flatMap (fun p =>
    p.2.datasources.flatMap (fun q =>
      q.2.connections.map (fun c =>
        Event.put p.2.site_id q.1 c.connection_id c.username c.password true)))

/-- Keep only the `put` events of a trace. -/
def putsOf (trace : List Event) : List Event :=
  trace.filter (fun e => match e with | Event.put _ _ _ _ _ _ => true | _ => false)

/-- Keep only the site content URLs of the `signIn` events of a trace. -/
def signInsOf (trace : List Event) : List String :=
  trace.filterMap (fun e => match e with | Event.signIn u => some u | _ => none)

/-- Every connection update of the plan carries a non-empty password —
guaranteed for every plan built by `buildUpdates`, whose row validation
rejects empty passwords. -/
def ValidPlan (plan : UpdatePlan) : Prop :=
  ∀ p ∈ plan, ∀ q ∈ (p : String × SiteEntry).2.datasources,
    ∀ c ∈ (q : String × DsEntry).2.connections, (c : ConnUpdate).password ≠ ""

instance : DecidablePred ValidPlan := fun plan => by
  unfold ValidPlan; infer_instance

/-! ## The session client (`get_api_token`, lines 77-114 of the source) -/

/-- The `credentials` object of a sign-in response body; the `token`
key may be absent. -/
structure SigninCreds where
  token : Option String
  deriving Repr, DecidableEq

/-- The parsed JSON body of a sign-in response; the `credentials` key
may be absent. -/
structure SigninBody where
  credentials : Option SigninCreds
  deriving Repr, DecidableEq

/-- A sign-in HTTP response: status code and parsed body. -/
structure SigninResponse where
  status : Nat
  body : SigninBody
  deriving Repr, DecidableEq

/-- The request payload `{credentials: {name, password, site: {contentUrl}}}`
built on lines 101-111: `contentUrl` defaults to `''` and is overridden
when the argument is not `None`. -/
structure SigninPayload where
  name : String
  password : String
  siteContentUrl : String
  deriving Repr, DecidableEq

/-- The payload of lines 101-111: `site.contentUrl` starts as `''` and
is overwritten when the `contentUrl` argument is not `None`. -/
def signinPayload (username password : String) (contentUrl : Option String) :
    SigninPayload :=
  { name := username, password := password,
    siteContentUrl := contentUrl.getD "" }

/-- The function `get_api_token(username, password, contentUrl=None)` (lines 77-114),
with the server as an explicit payload-to-response function.  The
source never consults `r.status_code`; it returns
`r.json()['credentials']['token']`, so a body missing either key raises
`KeyError` and a body carrying a token is accepted whatever the status. -/
def get_api_token (username password : String) (contentUrl : Option String)
    (server : SigninPayload → SigninResponse) : Except PyError String :=
  let r := server (signinPayload username password contentUrl)
  match r.body.credentials with
  | none => .error (.keyError "credentials")
  | some creds =>
    match creds.token with
    | none => .error (.keyError "token")
    | some t => .ok t

/-! ## The directory walker (`build_datasources_csv`, lines 141-211) -/

/-- One site as listed by `get_sites` (lines 134-139). -/
structure SiteInfo where
  name : String
  contentUrl : String
  deriving Repr, DecidableEq

/-- One data source from a `GET .../datasources` response. -/
structure SourceInfo where
  id : String
  name : String
  contentUrl : String
  deriving Repr, DecidableEq

/-- One connection from a `GET .../connections` response. -/
structure ConnInfo where
  id : String
  connType : String
  serverAddress : String
  serverPort : String
  userName : String
  deriving Repr, DecidableEq

/-- The listing responses the walker receives, already parsed.  `none`
models a response that omits the `datasource` (resp. `connection`)
key — the remote API omits the key instead of sending an empty list;
the source guards both accesses with an `in` test (lines 165 and 170),
so absence is never an error. -/
structure WalkerEnv where
  dsResp : String → Option (List SourceInfo)
  connResp : String → String → Option (List ConnInfo)

/-- The dictionary appended for one connection (lines 173-187):
`updated_username` / `updated_password` are written as `None`. -/
def mkRecord (siteId : String) (site : SiteInfo) (src : SourceInfo)
    (conn : ConnInfo) : Row :=
  { site_id := siteId,
    site_name := site.name,
    site_content_url := site.contentUrl,
    datasource_id := src.id,
    datasource_name := src.name,
    datasource_content_url := src.contentUrl,
    connection_id := conn.id,
    connection_type := conn.connType,
    connection_server_address := conn.serverAddress,
    connection_server_port := conn.serverPort,
    connection_username := conn.userName,
    updated_username := none,
    updated_password := none }

/-- Records contributed by one data source (lines 168-187): none at
all when the connections response omits the `connection` key. -/
def sourceRecords (env : WalkerEnv) (siteId : String) (site : SiteInfo)
    (src : SourceInfo) : List Row :=
  match env.connResp siteId src.id with
  | none => []
  | some conns => conns.map (mkRecord siteId site src)

/-- Records contributed by one site (lines 160-188): none at all when
the datasources response omits the `datasource` key. -/
def siteRecords (env : WalkerEnv) (siteId : String) (site : SiteInfo) : List Row :=
  match env.dsResp siteId with
  | none => []
  | some sources => sources.flatMap (sourceRecords env siteId site)

/-- The record-assembly phase of `build_datasources_csv` (lines
159-188): iterate the sites dictionary and collect every connection
row.  Total: no `ApiError`-like exception exists on this path. -/
def build_datasources_records (env : WalkerEnv)
    (sites : List (String × SiteInfo)) : List Row :=
  sites.flatMap (fun p => siteRecords env p.1 p.2)

/-- The CSV write of lines 190-210 followed by `csv.DictReader` on the
produced file: `csv.DictWriter` serialises `None` as an empty cell and
the reader hands every cell back as a string, so the round trip turns
`none` into `some ""` on the two `updated_*` columns and keeps every
other column unchanged. -/
def csvRoundTrip (r : Row) : Row :=
  { r with updated_username := some (r.updated_username.getD ""),
           updated_password := some (r.updated_password.getD "") }

/-- Filling in the credential columns of an exported row before
re-import, as the operator does between the two phases. -/
def fillRow (r : Row) (u p : String) : Row :=
  { r with updated_username := some u, updated_password := some p }

/-! ## Specification-side descriptions of the dispatcher trace

These are *not* re-definitions of the dispatcher: `runSites` threads a
possible exception through three nested loops, while the functions
below describe the trace of an exception-free run as one flat
`flatMap`.  That the two agree on valid plans is proved below. -/

/-- A row passing the validation of lines 236-239: both credential
fields present and non-empty. -/
def ValidRow (r : Row) : Prop :=
  (∃ u, r.updated_username = some u ∧ u ≠ "") ∧
  (∃ p, r.updated_password = some p ∧ p ≠ "")

instance : DecidablePred ValidRow := fun r => by
  refine decidable_of_iff
    ((r.updated_username.getD "" ≠ "" ∧ r.updated_username.isSome) ∧
     (r.updated_password.getD "" ≠ "" ∧ r.updated_password.isSome)) ?_
  unfold ValidRow
  cases r.updated_username <;> cases r.updated_password <;> simp

/-- The `put` event issued for one connection update (line 272). -/
def putEv (siteId dsId : String) (c : ConnUpdate) : Event :=
  Event.put siteId dsId c.connection_id c.username c.password true

/-- The redacted password as a plain string (only meaningful for
non-empty passwords, the only ones a validated plan contains). -/
def redactedOk (p : String) : String :=
  ((redactPassword p).toOption).getD ""

/-- The log line printed for one connection update (lines 273-284). -/
def connLine (oracle : PutOracle) (siteId siteName dsName dsId : String)
    (c : ConnUpdate) : LogLine :=
  let resp := oracle siteId dsId c.connection_id
  if resp.hasConnection then LogLine.success dsName c.username (redactedOk c.password)
  else LogLine.failure dsName siteName resp.bodyText

/-- The two events one connection update contributes to an
exception-free run. -/
def connTrace (oracle : PutOracle) (siteId siteName dsName dsId : String)
    (c : ConnUpdate) : List Event :=
  [putEv siteId dsId c, Event.print (connLine oracle siteId siteName dsName dsId c)]

/-- The events one data source contributes to an exception-free run. -/
def dsTrace (oracle : PutOracle) (siteId siteName : String)
    (q : String × DsEntry) : List Event :=
  q.2.connections.flatMap (connTrace oracle siteId siteName q.2.datasource_name q.1)

/-- The events one site contributes to an exception-free run: header
line, sign-in, then every connection update — and no sign-out. -/
def siteTrace (oracle : PutOracle) (p : String × SiteEntry) : List Event :=
  Event.print (LogLine.siteHeader p.2.site_name) :: Event.signIn p.1 ::
    p.2.datasources.flatMap (dsTrace oracle p.2.site_id p.2.site_name)

/-! ## Concrete inputs used by witnesses and counterexamples -/

/-- A fully filled, valid CSV row. -/
def sampleRow : Row :=
  { site_id := "site-1", site_name := "Default", site_content_url := "",
    datasource_id := "ds-1", datasource_name := "Sales",
    datasource_content_url := "sales", connection_id := "conn-1",
    connection_type := "postgres", connection_server_address := "db.local",
    connection_server_port := "5432", connection_username := "olduser",
    updated_username := some "newuser", updated_password := some "secret" }

/-- The same row with an empty `updated_username`. -/
def sampleRowEmptyUser : Row := { sampleRow with updated_username := some "" }

/-- The same row with `updated_username` missing (`None`). -/
def sampleRowNoneUser : Row := { sampleRow with updated_username := none }

/-- A second valid row for the same site and data source, different
connection, and deliberately different site metadata. -/
def sampleRow2 : Row :=
  { sampleRow with connection_id := "conn-2", site_id := "site-OTHER",
                   site_name := "Renamed", datasource_name := "SalesCopy",
                   updated_username := some "newuser2",
                   updated_password := some "hunter2" }

/-- A server that always answers success with a `connection` key. -/
def happyOracle : PutOracle := fun _ _ _ => { hasConnection := true, bodyText := "updated" }

/-- A server that rejects exactly connection `conn-2`. -/
def failSecondOracle : PutOracle := fun _ _ connId =>
  if connId = "conn-2" then { hasConnection := false, bodyText := "bad request" }
  else { hasConnection := true, bodyText := "updated" }

/-- A one-datasource site entry with two connection updates. -/
def sampleSiteEntry : SiteEntry :=
  { site_id := "site-1", site_name := "Default",
    datasources := [("ds-1",
      { datasource_name := "Sales",
        connections :=
          [{ connection_id := "conn-1", username := "newuser", password := "secret" },
           { connection_id := "conn-2", username := "newuser2", password := "hunter2" }] })] }

/-- A one-site, one-datasource plan with two connection updates. -/
def samplePlan : UpdatePlan := [("", sampleSiteEntry)]

/-- The plan obtained by merging `sampleRow2` into `samplePlan`: the
site keeps its original metadata and the third connection update is
appended. -/
def samplePlanAfter : UpdatePlan :=
  [("", { site_id := "site-1", site_name := "Default",
          datasources := [("ds-1",
            { datasource_name := "Sales",
              connections :=
                [{ connection_id := "conn-1", username := "newuser", password := "secret" },
                 { connection_id := "conn-2", username := "newuser2", password := "hunter2" },
                 { connection_id := "conn-2", username := "newuser2", password := "hunter2" }] })] })]

/-- A sign-in response that rejects the request (HTTP 401) yet carries
a token in its body. -/
def rejectingWithToken : SigninResponse :=
  { status := 401, body := { credentials := some { token := some "tok-123" } } }

/-- A sign-in response whose body lacks the `credentials` key. -/
def rejectingNoBody : SigninResponse :=
  { status := 401, body := { credentials := none } }

/-- A walker environment where site `empty-site` omits the
`datasource` key, data source `silent-ds` omits the `connection` key,
and everything else answers one data source with one connection. -/
def sampleEnv : WalkerEnv :=
  { dsResp := fun sid =>
      if sid = "empty-site" then none
      else some [{ id := "silent-ds", name := "NoConns", contentUrl := "nc" },
                 { id := "full-ds", name := "Sales", contentUrl := "sales" }],
    connResp := fun _ dsId =>
      if dsId = "silent-ds" then none
      else some [{ id := "conn-1", connType := "postgres", serverAddress := "db",
                   serverPort := "5432", userName := "u" }] }

/-- One site entry for walker examples. -/
def sampleSite : SiteInfo := { name := "Default", contentUrl := "" }

/-! ## Helper lemmas: strings, association lists, row validation -/

theorem length_ne_zero {s : String} (h : s ≠ "") : s.length ≠ 0 := by
  cases s with
  | mk data =>
    cases data with
    | nil => exact absurd rfl h
    | cons c cs => simp [String.length]

theorem exceptBind_ok {ε α β : Type} (a : α) (f : α → Except ε β) :
    ((Except.ok a : Except ε α) >>= f) = f a := rfl

theorem exceptBind_error {ε α β : Type} (e : ε) (f : α → Except ε β) :
    ((Except.error e : Except ε α) >>= f) = .error e := rfl

theorem lookup_cons {β : Type} (k a : String) (b : β) (rest : List (String × β)) :
    ((a, b) :: rest).lookup k = if k = a then some b else rest.lookup k := by
  by_cases h : k = a
  · have : (k == a) = true := beq_iff_eq.mpr h
    simp only [List.lookup, this, if_pos h]
  · have : (k == a) = false := beq_eq_false_iff_ne.mpr h
    simp only [List.lookup, this, if_neg h]

theorem lookup_append {β : Type} (k : String) (l₁ l₂ : List (String × β)) :
    (l₁ ++ l₂).lookup k = ((l₁.lookup k).orElse (fun _ => l₂.lookup k)) := by
  induction l₁ with
  | nil => simp [List.lookup]
  | cons p rest ih =>
    rcases p with ⟨a, b⟩
    rw [List.cons_append, lookup_cons, lookup_cons]
    by_cases h : k = a <;> simp [h, ih]

theorem alUpdate_cons {β : Type} (k a : String) (b : β) (rest : List (String × β))
    (f : β → β) :
    alUpdate k f ((a, b) :: rest) =
      if a = k then (a, f b) :: rest else (a, b) :: alUpdate k f rest := rfl

theorem lookup_alUpdate {β : Type} (k k' : String) (f : β → β) (l : List (String × β)) :
    (alUpdate k f l).lookup k' = if k' = k then (l.lookup k).map f else l.lookup k' := by
  induction l with
  | nil => simp [alUpdate, List.lookup]
  | cons p rest ih =>
    rcases p with ⟨a, b⟩
    rw [alUpdate_cons]
    by_cases hak : a = k
    · rw [if_pos hak]
      have hka : k = a := hak.symm
      by_cases hk' : k' = a
      · rw [lookup_cons, if_pos hk', if_pos (hk'.trans hka.symm), lookup_cons,
          if_pos hka]
        rfl
      · have hkk : ¬ k' = k := fun h => hk' (h.trans hka)
        rw [lookup_cons, if_neg hk', if_neg hkk, lookup_cons, if_neg hk']
    · rw [if_neg hak, lookup_cons]
      have hka : ¬ k = a := fun h => hak h.symm
      by_cases hk' : k' = a
      · have hkk : ¬ k' = k := fun h => hka (h.symm.trans hk')
        rw [if_pos hk', if_neg hkk, lookup_cons, if_pos hk']
      · rw [if_neg hk', ih]
        simp [lookup_cons, hka, hk']

theorem alUpdate_of_lookup_none {β : Type} {k : String} {l : List (String × β)}
    (h : l.lookup k = none) (f : β → β) : alUpdate k f l = l := by
  induction l with
  | nil => rfl
  | cons p rest ih =>
    rcases p with ⟨a, b⟩
    rw [lookup_cons] at h
    by_cases hka : k = a
    · rw [if_pos hka] at h; cases h
    · have hak : ¬ a = k := fun hk => hka hk.symm
      rw [if_neg hka] at h
      rw [alUpdate_cons, if_neg hak, ih h]

theorem validateField_none (msg : String) :
    validateField none msg =
      .error (.typeError "object of type NoneType has no len()") := rfl

theorem validateField_empty (msg : String) :
    validateField (some "") msg = .error (.valueError msg) := rfl

theorem validateField_valid {s : String} (h : s ≠ "") (msg : String) :
    validateField (some s) msg = .ok () := by
  simp [validateField, pyLen, pyIsNone, exceptBind_ok, length_ne_zero h]

theorem applyRow_valid {row : Row} {u p : String}
    (hu : row.updated_username = some u) (hu' : u ≠ "")
    (hp : row.updated_password = some p) (hp' : p ≠ "") (acc : UpdatePlan) :
    applyRow acc row =
      .ok (appendConnection (ensureDatasource (ensureSite acc row) row) row) := by
  simp [applyRow, hu, hp, validateField_valid hu', validateField_valid hp',
    exceptBind_ok]

theorem applyRow_none_user {row : Row} (h : row.updated_username = none)
    (acc : UpdatePlan) :
    applyRow acc row =
      .error (.typeError "object of type NoneType has no len()") := by
  simp [applyRow, h, validateField_none, exceptBind_error]

theorem applyRow_empty_user {row : Row} (h : row.updated_username = some "")
    (acc : UpdatePlan) :
    applyRow acc row = .error (.valueError usernameMsg) := by
  simp [applyRow, h, validateField_empty, exceptBind_error]

theorem applyRow_none_pass {row : Row} {u : String}
    (hu : row.updated_username = some u) (hu' : u ≠ "")
    (hp : row.updated_password = none) (acc : UpdatePlan) :
    applyRow acc row =
      .error (.typeError "object of type NoneType has no len()") := by
  simp [applyRow, hu, hp, validateField_valid hu', validateField_none,
    exceptBind_ok, exceptBind_error]

theorem applyRow_empty_pass {row : Row} {u : String}
    (hu : row.updated_username = some u) (hu' : u ≠ "")
    (hp : row.updated_password = some "") (acc : UpdatePlan) :
    applyRow acc row = .error (.valueError passwordMsg) := by
  simp [applyRow, hu, hp, validateField_valid hu', validateField_empty,
    exceptBind_ok, exceptBind_error]

theorem sumSnd_alUpdate {β : Type} (g : β → Nat) {k : String} {l : List (String × β)}
    {v : β} (h : l.lookup k = some v) (f : β → β) :
    ((alUpdate k f l).map (fun p => g p.2)).sum + g v
      = (l.map (fun p => g p.2)).sum + g (f v) := by
  induction l with
  | nil => cases h
  | cons p rest ih =>
    rcases p with ⟨a, b⟩
    rw [lookup_cons] at h
    by_cases hka : k = a
    · rw [if_pos hka] at h
      injection h with hv
      subst hv
      rw [alUpdate_cons, if_pos hka.symm]
      simp only [List.map_cons, List.sum_cons]
      omega
    · rw [if_neg hka] at h
      have hak : ¬ a = k := fun hk => hka hk.symm
      rw [alUpdate_cons, if_neg hak]
      simp only [List.map_cons, List.sum_cons]
      have := ih h
      omega

theorem lookup_ensureSite_preserve {acc : UpdatePlan} {k : String} {se : SiteEntry}
    (row : Row) (h : acc.lookup k = some se) :
    (ensureSite acc row).lookup k = some se := by
  unfold ensureSite
  by_cases hs : (acc.lookup row.site_content_url).isSome
  · rw [if_pos hs]; exact h
  · rw [if_neg hs, lookup_append, h]; rfl

theorem lookup_ensureSite_new {acc : UpdatePlan} {row : Row}
    (h : acc.lookup row.site_content_url = none) :
    (ensureSite acc row).lookup row.site_content_url
      = some { site_id := row.site_id, site_name := row.site_name, datasources := [] } := by
  unfold ensureSite
  rw [if_neg (by simp [h]), lookup_append, h]
  simp [lookup_cons]

theorem lookup_ensureSite_isSome (acc : UpdatePlan) (row : Row) :
    ∃ se, (ensureSite acc row).lookup row.site_content_url = some se := by
  rcases hs : acc.lookup row.site_content_url with _ | se
  · exact ⟨_, lookup_ensureSite_new hs⟩
  · exact ⟨se, lookup_ensureSite_preserve row hs⟩

theorem planCount_ensureSite (acc : UpdatePlan) (row : Row) :
    planCount (ensureSite acc row) = planCount acc := by
  unfold ensureSite
  by_cases hs : (acc.lookup row.site_content_url).isSome
  · rw [if_pos hs]
  · rw [if_neg hs]
    unfold planCount
    simp [siteConnCount]

theorem ensureDsSite_site_id (row : Row) (se : SiteEntry) :
    (ensureDsSite row se).site_id = se.site_id := by
  unfold ensureDsSite
  by_cases h : (se.datasources.lookup row.datasource_id).isSome <;> simp [h]

theorem ensureDsSite_site_name (row : Row) (se : SiteEntry) :
    (ensureDsSite row se).site_name = se.site_name := by
  unfold ensureDsSite
  by_cases h : (se.datasources.lookup row.datasource_id).isSome <;> simp [h]

theorem ensureDsSite_lookup_preserve {row : Row} {se : SiteEntry} {ds : String}
    {de : DsEntry} (h : se.datasources.lookup ds = some de) :
    (ensureDsSite row se).datasources.lookup ds = some de := by
  unfold ensureDsSite
  by_cases hs : (se.datasources.lookup row.datasource_id).isSome
  · rw [if_pos hs]; exact h
  · rw [if_neg hs]
    show (se.datasources ++ _).lookup ds = some de
    rw [lookup_append, h]; rfl

theorem ensureDsSite_lookup_new {row : Row} {se : SiteEntry}
    (h : se.datasources.lookup row.datasource_id = none) :
    (ensureDsSite row se).datasources.lookup row.datasource_id
      = some { datasource_name := row.datasource_name, connections := [] } := by
  unfold ensureDsSite
  rw [if_neg (by simp [h])]
  show (se.datasources ++ _).lookup row.datasource_id = _
  rw [lookup_append, h]
  simp [lookup_cons]

theorem ensureDsSite_lookup_self (row : Row) (se : SiteEntry) :
    ∃ de, (ensureDsSite row se).datasources.lookup row.datasource_id = some de := by
  rcases hs : se.datasources.lookup row.datasource_id with _ | de
  · exact ⟨_, ensureDsSite_lookup_new hs⟩
  · exact ⟨de, ensureDsSite_lookup_preserve hs⟩

theorem siteConnCount_ensureDsSite (row : Row) (se : SiteEntry) :
    siteConnCount (ensureDsSite row se) = siteConnCount se := by
  unfold ensureDsSite
  by_cases hs : (se.datasources.lookup row.datasource_id).isSome
  · rw [if_pos hs]
  · rw [if_neg hs]
    unfold siteConnCount
    simp

theorem lookup_ensureDatasource_other {acc : UpdatePlan} {row : Row} {k : String}
    (hk : k ≠ row.site_content_url) :
    (ensureDatasource acc row).lookup k = acc.lookup k := by
  unfold ensureDatasource
  rw [lookup_alUpdate, if_neg hk]

theorem lookup_ensureDatasource_self {acc : UpdatePlan} {row : Row} {se : SiteEntry}
    (h : acc.lookup row.site_content_url = some se) :
    (ensureDatasource acc row).lookup row.site_content_url = some (ensureDsSite row se) := by
  unfold ensureDatasource
  rw [lookup_alUpdate, if_pos rfl, h]
  rfl

theorem planCount_ensureDatasource {acc : UpdatePlan} {row : Row} {se : SiteEntry}
    (h : acc.lookup row.site_content_url = some se) :
    planCount (ensureDatasource acc row) = planCount acc := by
  have key := sumSnd_alUpdate siteConnCount h (ensureDsSite row)
  have hpres := siteConnCount_ensureDsSite row se
  unfold ensureDatasource planCount
  omega

theorem appendConnDs_name (row : Row) (de : DsEntry) :
    (appendConnDs row de).datasource_name = de.datasource_name := rfl

theorem appendConnDs_connections (row : Row) (de : DsEntry) :
    (appendConnDs row de).connections = de.connections ++ [rowConnUpdate row] := rfl

theorem appendConnSite_site_id (row : Row) (se : SiteEntry) :
    (appendConnSite row se).site_id = se.site_id := rfl

theorem appendConnSite_site_name (row : Row) (se : SiteEntry) :
    (appendConnSite row se).site_name = se.site_name := rfl

theorem appendConnSite_lookup (row : Row) (se : SiteEntry) (ds : String) :
    (appendConnSite row se).datasources.lookup ds =
      if ds = row.datasource_id then (se.datasources.lookup row.datasource_id).map (appendConnDs row)
      else se.datasources.lookup ds := by
  unfold appendConnSite
  show (alUpdate row.datasource_id (appendConnDs row) se.datasources).lookup ds = _
  rw [lookup_alUpdate]

theorem siteConnCount_appendConnSite {row : Row} {se : SiteEntry} {de : DsEntry}
    (h : se.datasources.lookup row.datasource_id = some de) :
    siteConnCount (appendConnSite row se) = siteConnCount se + 1 := by
  have key := sumSnd_alUpdate (fun d => d.connections.length) h (appendConnDs row)
  have hlen : (appendConnDs row de).connections.length = de.connections.length + 1 := by
    simp [appendConnDs]
  unfold siteConnCount
  have hds : (appendConnSite row se).datasources
      = alUpdate row.datasource_id (appendConnDs row) se.datasources := rfl
  rw [hds]
  simp only at key
  omega

theorem lookup_appendConnection_other {acc : UpdatePlan} {row : Row} {k : String}
    (hk : k ≠ row.site_content_url) :
    (appendConnection acc row).lookup k = acc.lookup k := by
  unfold appendConnection
  rw [lookup_alUpdate, if_neg hk]

theorem lookup_appendConnection_self {acc : UpdatePlan} {row : Row} {se : SiteEntry}
    (h : acc.lookup row.site_content_url = some se) :
    (appendConnection acc row).lookup row.site_content_url = some (appendConnSite row se) := by
  unfold appendConnection
  rw [lookup_alUpdate, if_pos rfl, h]
  rfl

theorem planCount_appendConnection {acc : UpdatePlan} {row : Row} {se : SiteEntry}
    {de : DsEntry} (hse : acc.lookup row.site_content_url = some se)
    (hds : se.datasources.lookup row.datasource_id = some de) :
    planCount (appendConnection acc row) = planCount acc + 1 := by
  have key := sumSnd_alUpdate siteConnCount hse (appendConnSite row)
  have hcnt := siteConnCount_appendConnSite hds
  unfold appendConnection planCount
  omega

theorem applyRow_ok_inv {acc acc' : UpdatePlan} {row : Row}
    (h : applyRow acc row = .ok acc') :
    ValidRow row ∧
      acc' = appendConnection (ensureDatasource (ensureSite acc row) row) row := by
  rcases hu : row.updated_username with _ | u
  · rw [applyRow_none_user hu] at h; cases h
  · by_cases hu' : u = ""
    · subst hu'; rw [applyRow_empty_user hu] at h; cases h
    · rcases hp : row.updated_password with _ | p
      · rw [applyRow_none_pass hu hu' hp] at h; cases h
      · by_cases hp' : p = ""
        · subst hp'; rw [applyRow_empty_pass hu hu' hp] at h; cases h
        · rw [applyRow_valid hu hu' hp hp'] at h
          refine ⟨⟨⟨u, hu, hu'⟩, ⟨p, hp, hp'⟩⟩, ?_⟩
          exact (Except.ok.injEq _ _).mp h.symm ▸ rfl

theorem planCount_applyRow {acc acc' : UpdatePlan} {row : Row}
    (h : applyRow acc row = .ok acc') :
    planCount acc' = planCount acc + 1 := by
  obtain ⟨-, rfl⟩ := applyRow_ok_inv h
  obtain ⟨se, hse⟩ := lookup_ensureSite_isSome acc row
  have hse2 := lookup_ensureDatasource_self hse
  obtain ⟨de, hde⟩ := ensureDsSite_lookup_self row se
  rw [planCount_appendConnection hse2 hde, planCount_ensureDatasource hse,
    planCount_ensureSite]

theorem foldl_error_of_bad :
    ∀ (rows : List Row) (acc : UpdatePlan),
    (∀ r ∈ rows, r.updated_username.isSome ∧ r.updated_password.isSome) →
    (∃ r ∈ rows, r.updated_username = some "" ∨ r.updated_password = some "") →
    ∃ msg, (msg = usernameMsg ∨ msg = passwordMsg) ∧
      List.foldlM applyRow acc rows = .error (.valueError msg) := by
  intro rows
  induction rows with
  | nil =>
    intro acc _ hbad
    rcases hbad with ⟨r, hr, _⟩
    cases hr
  | cons r rows ih =>
    intro acc hall hbad
    obtain ⟨hus, hps⟩ := hall r (by simp)
    rcases hu : r.updated_username with _ | u
    · rw [hu] at hus; cases hus
    rcases hp : r.updated_password with _ | p
    · rw [hp] at hps; cases hps
    by_cases hue : u = ""
    · subst hue
      exact ⟨usernameMsg, Or.inl rfl, by
        rw [List.foldlM_cons, applyRow_empty_user hu, exceptBind_error]⟩
    by_cases hpe : p = ""
    · subst hpe
      exact ⟨passwordMsg, Or.inr rfl, by
        rw [List.foldlM_cons, applyRow_empty_pass hu hue hp, exceptBind_error]⟩
    have htail : ∃ r' ∈ rows, r'.updated_username = some "" ∨ r'.updated_password = some "" := by
      rcases hbad with ⟨r', hr', hbad'⟩
      rcases List.mem_cons.mp hr' with hr'' | hr''
      · subst hr''
        rcases hbad' with h | h
        · rw [hu] at h; injection h with h; exact absurd h hue
        · rw [hp] at h; injection h with h; exact absurd h hpe
      · exact ⟨r', hr'', hbad'⟩
    obtain ⟨msg, hmsg, hfold⟩ :=
      ih (appendConnection (ensureDatasource (ensureSite acc r) r) r)
        (fun r' hr' => hall r' (List.mem_cons_of_mem r hr')) htail
    exact ⟨msg, hmsg, by
      rw [List.foldlM_cons, applyRow_valid hu hue hp hpe, exceptBind_ok, hfold]⟩

theorem foldl_count :
    ∀ (rows : List Row) (acc : UpdatePlan), (∀ r ∈ rows, ValidRow r) →
    ∃ plan, List.foldlM applyRow acc rows = .ok plan ∧
      planCount plan = planCount acc + rows.length := by
  intro rows
  induction rows with
  | nil => intro acc _; exact ⟨acc, rfl, by simp⟩
  | cons r rows ih =>
    intro acc hv
    obtain ⟨⟨u, hu, hu'⟩, ⟨p, hp, hp'⟩⟩ := hv r (by simp)
    obtain ⟨plan, hfold, hcount⟩ :=
      ih (appendConnection (ensureDatasource (ensureSite acc r) r) r)
        (fun r' hr' => hv r' (List.mem_cons_of_mem r hr'))
    refine ⟨plan, ?_, ?_⟩
    · rw [List.foldlM_cons, applyRow_valid hu hu' hp hp', exceptBind_ok, hfold]
    · have hstep : planCount (appendConnection (ensureDatasource (ensureSite acc r) r) r)
          = planCount acc + 1 :=
        planCount_applyRow (applyRow_valid hu hu' hp hp' acc)
      rw [hcount, hstep]
      simp [Nat.add_assoc, Nat.add_comm]

theorem valid_of_filled :
    ∀ (records : List Row) (fills : List (String × String)),
    (∀ f ∈ fills, (f : String × String).1 ≠ "" ∧ f.2 ≠ "") →
    ∀ row ∈ List.zipWith (fun r f => fillRow (csvRoundTrip r) f.1 f.2) records fills,
      ValidRow row := by
  intro records
  induction records with
  | nil => intro fills _ row hrow; simp at hrow
  | cons r rs ih =>
    intro fills hf row hrow
    cases fills with
    | nil => simp at hrow
    | cons f fs =>
      rw [List.zipWith_cons_cons] at hrow
      rcases List.mem_cons.mp hrow with h | h
      · subst h
        obtain ⟨h1, h2⟩ := hf f (by simp)
        exact ⟨⟨f.1, rfl, h1⟩, ⟨f.2, rfl, h2⟩⟩
      · exact ih fs (fun g hg => hf g (List.mem_cons_of_mem f hg)) row h

/-! ## The claims -/

/-- C1: if every row of the CSV carries both credential columns and
some row has an empty `updated_username` or `updated_password`, then
the import fails with the `ValueError` (`ValidationError`) naming the
missing field, after printing only the `Collecting data` line: the
whole-file validation pre-pass finishes before the first update call,
so no `put` request is ever issued. -/
theorem import_validation_blocks_network (path : String) (rows : List Row)
    (oracle : PutOracle)
    (hall : ∀ r ∈ rows, r.updated_username.isSome ∧ r.updated_password.isSome)
    (hbad : ∃ r ∈ rows, r.updated_username = some "" ∨ r.updated_password = some "") :
    ∃ msg, (msg = usernameMsg ∨ msg = passwordMsg) ∧
      update_datasources_from_csv path rows oracle
        = ([Event.print (LogLine.collecting path)], some (.valueError msg)) ∧
      putsOf (update_datasources_from_csv path rows oracle).1 = [] := by
  obtain ⟨msg, hmsg, hfold⟩ := foldl_error_of_bad rows [] hall hbad
  have hrun : update_datasources_from_csv path rows oracle
      = ([Event.print (LogLine.collecting path)], some (.valueError msg)) := by
    unfold update_datasources_from_csv buildUpdates
    rw [hfold]
  exact ⟨msg, hmsg, hrun, by rw [hrun]; rfl⟩

theorem import_validation_blocks_network_witness :
    (∀ r ∈ [sampleRowEmptyUser], r.updated_username.isSome ∧ r.updated_password.isSome) ∧
    (∃ r ∈ [sampleRowEmptyUser], r.updated_username = some "" ∨ r.updated_password = some "") ∧
    ∃ msg, (msg = usernameMsg ∨ msg = passwordMsg) ∧
      update_datasources_from_csv "datasources.csv" [sampleRowEmptyUser] happyOracle
        = ([Event.print (LogLine.collecting "datasources.csv")], some (.valueError msg)) ∧
      putsOf (update_datasources_from_csv "datasources.csv" [sampleRowEmptyUser] happyOracle).1 = [] :=
  ⟨by decide, by decide,
    import_validation_blocks_network "datasources.csv" [sampleRowEmptyUser] happyOracle
      (by decide) (by decide)⟩

/-- C3: exporting any list of connection records and re-importing the
resulting file after filling the two credential columns with non-empty
values yields an `UpdatePlan` whose total connection-update count,
summed over all sites and data sources, is the number of records. -/
theorem export_reimport_count (records : List Row) (fills : List (String × String))
    (hlen : fills.length = records.length)
    (hfill : ∀ f ∈ fills, (f : String × String).1 ≠ "" ∧ f.2 ≠ "") :
    ∃ plan,
      buildUpdates
          (List.zipWith (fun r f => fillRow (csvRoundTrip r) f.1 f.2) records fills)
        = .ok plan ∧ planCount plan = records.length := by
  obtain ⟨plan, hfold, hcount⟩ :=
    foldl_count (List.zipWith (fun r f => fillRow (csvRoundTrip r) f.1 f.2) records fills)
      [] (valid_of_filled records fills hfill)
  refine ⟨plan, hfold, ?_⟩
  rw [hcount]
  simp [planCount, List.length_zipWith, hlen]

theorem export_reimport_count_witness :
    ([("u1", "p1"), ("u2", "p2")] : List (String × String)).length
        = [sampleRow, sampleRow2].length ∧
    (∀ f ∈ ([("u1", "p1"), ("u2", "p2")] : List (String × String)), f.1 ≠ "" ∧ f.2 ≠ "") ∧
    ∃ plan,
      buildUpdates
          (List.zipWith (fun r f => fillRow (csvRoundTrip r) f.1 f.2)
            [sampleRow, sampleRow2] [("u1", "p1"), ("u2", "p2")])
        = .ok plan ∧ planCount plan = [sampleRow, sampleRow2].length :=
  ⟨by decide, by decide,
    export_reimport_count [sampleRow, sampleRow2] [("u1", "p1"), ("u2", "p2")]
      (by decide) (by decide)⟩

/-- C9: the `is None` disjunct of each row-validation condition is
unreachable.  Python evaluates `len(row[f]) == 0` first, so a `None`
value raises `TypeError` from `len(None)` before the `is None` test
runs; and whenever `len` returns (so the `or` can reach its second
disjunct), the value is not `None`. -/
theorem none_check_unreachable :
    (∀ (v : Option String) (n : Nat), pyLen v = .ok n → pyIsNone v = false) ∧
    (∀ msg, validateField none msg
      = .error (.typeError "object of type NoneType has no len()")) ∧
    (∀ (acc : UpdatePlan) (row : Row), row.updated_username = none →
      applyRow acc row = .error (.typeError "object of type NoneType has no len()")) ∧
    (∀ (acc : UpdatePlan) (row : Row) (u : String), row.updated_username = some u →
      u ≠ "" → row.updated_password = none →
      applyRow acc row = .error (.typeError "object of type NoneType has no len()")) := by
  refine ⟨?_, validateField_none, ?_, ?_⟩
  · intro v n h
    cases v with
    | none => cases h
    | some s => rfl
  · intro acc row h
    exact applyRow_none_user h acc
  · intro acc row u hu hu' hp
    exact applyRow_none_pass hu hu' hp acc

theorem none_check_unreachable_witness :
    applyRow [] sampleRowNoneUser
      = .error (.typeError "object of type NoneType has no len()") :=
  none_check_unreachable.2.2.1 [] sampleRowNoneUser rfl

/-- C10: merging a later row into an existing `UpdatePlan` never
overwrites stored metadata.  Every existing site entry keeps its
`site_id` and `site_name`, every existing data-source entry keeps its
`datasource_name` and only ever has connections appended; and when the
row's `site_content_url` is new, the fresh entry takes its metadata
from that (first) row. -/
theorem later_rows_never_overwrite {plan plan' : UpdatePlan} {row : Row}
    (h : applyRow plan row = .ok plan') :
    (∀ url se, plan.lookup url = some se →
      ∃ se', plan'.lookup url = some se' ∧
        se'.site_id = se.site_id ∧ se'.site_name = se.site_name ∧
        ∀ ds de, se.datasources.lookup ds = some de →
          ∃ de', se'.datasources.lookup ds = some de' ∧
            de'.datasource_name = de.datasource_name ∧
            ∃ tail, de'.connections = de.connections ++ tail)
    ∧ (plan.lookup row.site_content_url = none →
        ∃ se', plan'.lookup row.site_content_url = some se' ∧
          se'.site_id = row.site_id ∧ se'.site_name = row.site_name) := by
  obtain ⟨-, rfl⟩ := applyRow_ok_inv h
  constructor
  · intro url se hse
    by_cases hurl : url = row.site_content_url
    · subst hurl
      have h1 : (ensureSite plan row).lookup row.site_content_url = some se :=
        lookup_ensureSite_preserve row hse
      have h2 := lookup_ensureDatasource_self h1
      have h3 := lookup_appendConnection_self h2
      refine ⟨appendConnSite row (ensureDsSite row se), h3, ?_, ?_, ?_⟩
      · rw [appendConnSite_site_id, ensureDsSite_site_id]
      · rw [appendConnSite_site_name, ensureDsSite_site_name]
      · intro ds de hde
        have hde1 : (ensureDsSite row se).datasources.lookup ds = some de :=
          ensureDsSite_lookup_preserve hde
        rw [appendConnSite_lookup]
        by_cases hds : ds = row.datasource_id
        · subst hds
          rw [if_pos rfl, hde1]
          exact ⟨appendConnDs row de, rfl, appendConnDs_name row de,
            [rowConnUpdate row], appendConnDs_connections row de⟩
        · rw [if_neg hds, hde1]
          exact ⟨de, rfl, rfl, [], by simp⟩
    · have h1 : (ensureSite plan row).lookup url = some se :=
        lookup_ensureSite_preserve row hse
      have h2 : (ensureDatasource (ensureSite plan row) row).lookup url = some se := by
        rw [lookup_ensureDatasource_other hurl]; exact h1
      have h3 : (appendConnection (ensureDatasource (ensureSite plan row) row) row).lookup url
          = some se := by
        rw [lookup_appendConnection_other hurl]; exact h2
      exact ⟨se, h3, rfl, rfl, fun ds de hde => ⟨de, hde, rfl, [], by simp⟩⟩
  · intro hnone
    have h1 := lookup_ensureSite_new hnone
    have h2 := lookup_ensureDatasource_self h1
    have h3 := lookup_appendConnection_self h2
    exact ⟨_, h3, by rw [appendConnSite_site_id, ensureDsSite_site_id],
      by rw [appendConnSite_site_name, ensureDsSite_site_name]⟩

theorem later_rows_never_overwrite_witness :
    applyRow samplePlan sampleRow2 = .ok samplePlanAfter ∧
    ∃ se', samplePlanAfter.lookup "" = some se' ∧
      se'.site_id = "site-1" ∧ se'.site_name = "Default" := by
  have happ : applyRow samplePlan sampleRow2 = .ok samplePlanAfter := by rfl
  have hlook : samplePlan.lookup "" = some sampleSiteEntry := by decide
  obtain ⟨se', hse', hid, hname, -⟩ :=
    (later_rows_never_overwrite happ).1 "" sampleSiteEntry hlook
  refine ⟨happ, se', hse', ?_, ?_⟩
  · rw [hid]; rfl
  · rw [hname]; rfl

/-- C4: two valid rows sharing `site_content_url` and `datasource_id`
but with different `connection_id` values merge into a single
data-source entry whose connection list holds both updates — not two
separate entries. -/
theorem grouping_merges_rows (r1 r2 : Row) (u1 p1 u2 p2 : String)
    (hu1 : r1.updated_username = some u1) (hu1' : u1 ≠ "")
    (hp1 : r1.updated_password = some p1) (hp1' : p1 ≠ "")
    (hu2 : r2.updated_username = some u2) (hu2' : u2 ≠ "")
    (hp2 : r2.updated_password = some p2) (hp2' : p2 ≠ "")
    (hurl : r2.site_content_url = r1.site_content_url)
    (hds : r2.datasource_id = r1.datasource_id)
    (hconn : r2.connection_id ≠ r1.connection_id) :
    buildUpdates [r1, r2] = .ok
      [(r1.site_content_url,
        { site_id := r1.site_id, site_name := r1.site_name,
          datasources := [(r1.datasource_id,
            { datasource_name := r1.datasource_name,
              connections :=
                [{ connection_id := r1.connection_id, username := u1, password := p1 },
                 { connection_id := r2.connection_id, username := u2, password := p2 }] })] })] := by
  unfold buildUpdates
  rw [List.foldlM_cons, applyRow_valid hu1 hu1' hp1 hp1', exceptBind_ok,
    List.foldlM_cons, applyRow_valid hu2 hu2' hp2 hp2', exceptBind_ok,
    List.foldlM_nil]
  simp [ensureSite, ensureDatasource, ensureDsSite, appendConnection,
    appendConnSite, appendConnDs, alUpdate, List.lookup, rowConnUpdate,
    hu1, hp1, hu2, hp2, hurl, hds]
  rfl

theorem grouping_merges_rows_witness :
    buildUpdates [sampleRow, sampleRow2] = .ok
      [("", { site_id := "site-1", site_name := "Default",
              datasources := [("ds-1",
                { datasource_name := "Sales",
                  connections :=
                    [{ connection_id := "conn-1", username := "newuser", password := "secret" },
                     { connection_id := "conn-2", username := "newuser2", password := "hunter2" }] })] })] :=
  grouping_merges_rows sampleRow sampleRow2 "newuser" "secret" "newuser2" "hunter2"
    rfl (by decide) rfl (by decide) rfl (by decide) rfl (by decide)
    rfl rfl (by decide)

/-! ## Dispatcher trace lemmas -/

theorem redactPassword_ok {p : String} (h : p ≠ "") :
    redactPassword p = .ok (redactedOk p) := by
  cases p with
  | mk data =>
    cases data with
    | nil => exact absurd rfl h
    | cons c cs =>
      rcases hg : (c :: cs).getLast? with _ | b
      · rw [List.getLast?_eq_none_iff] at hg; cases hg
      · simp only [redactPassword, pyStrFirst, pyStrLast, redactedOk, hg,
          exceptBind_ok]
        rfl

theorem runConnections_eq (oracle : PutOracle) (sid sname dname dsid : String)
    {conns : List ConnUpdate} (hv : ∀ c ∈ conns, (c : ConnUpdate).password ≠ "") :
    runConnections oracle sid sname dname dsid conns
      = (conns.flatMap (connTrace oracle sid sname dname dsid), none) := by
  induction conns with
  | nil => rfl
  | cons c cs ih =>
    have hc : c.password ≠ "" := hv c (by simp)
    rw [runConnections, redactPassword_ok hc,
      ih (fun c' hc' => hv c' (List.mem_cons_of_mem c hc')), List.flatMap_cons]
    rfl

theorem runDatasources_eq (oracle : PutOracle) (sid sname : String)
    {dss : List (String × DsEntry)}
    (hv : ∀ q ∈ dss, ∀ c ∈ (q : String × DsEntry).2.connections,
      (c : ConnUpdate).password ≠ "") :
    runDatasources oracle sid sname dss
      = (dss.flatMap (dsTrace oracle sid sname), none) := by
  induction dss with
  | nil => rfl
  | cons q rest ih =>
    rcases q with ⟨dsId, de⟩
    have hc : ∀ c ∈ de.connections, (c : ConnUpdate).password ≠ "" :=
      fun c h => hv (dsId, de) (by simp) c h
    rw [runDatasources,
      runConnections_eq oracle sid sname de.datasource_name dsId hc,
      ih (fun q' hq' c' hc' => hv q' (List.mem_cons_of_mem _ hq') c' hc'),
      List.flatMap_cons]
    rfl

theorem runSites_eq (oracle : PutOracle) {plan : UpdatePlan} (hv : ValidPlan plan) :
    runSites oracle plan = (plan.flatMap (siteTrace oracle), none) := by
  induction plan with
  | nil => rfl
  | cons p rest ih =>
    rcases p with ⟨url, se⟩
    have hse : ∀ q ∈ se.datasources, ∀ c ∈ (q : String × DsEntry).2.connections,
        (c : ConnUpdate).password ≠ "" :=
      fun q hq c hc => hv (url, se) (by simp) q hq c hc
    rw [runSites, runDatasources_eq oracle se.site_id se.site_name hse,
      ih (fun p' hp' => hv p' (List.mem_cons_of_mem _ hp')),
      List.flatMap_cons]
    rfl

theorem signOut_not_mem_runConnections (oracle : PutOracle)
    (sid sname dname dsid : String) (conns : List ConnUpdate) :
    Event.signOut ∉ (runConnections oracle sid sname dname dsid conns).1 := by
  induction conns with
  | nil => simp [runConnections]
  | cons c cs ih =>
    rcases hr : redactPassword c.password with e | red
    · simp [runConnections, hr]
    · simp [runConnections, hr]
      exact ih

theorem signOut_not_mem_runDatasources (oracle : PutOracle) (sid sname : String)
    (dss : List (String × DsEntry)) :
    Event.signOut ∉ (runDatasources oracle sid sname dss).1 := by
  induction dss with
  | nil => simp [runDatasources]
  | cons q rest ih =>
    rcases q with ⟨dsId, de⟩
    have hconns := signOut_not_mem_runConnections oracle sid sname de.datasource_name dsId
      de.connections
    rcases hrc : runConnections oracle sid sname de.datasource_name dsId de.connections
      with ⟨evs, err⟩
    rw [hrc] at hconns
    cases err with
    | none => simp [runDatasources, hrc]; exact ⟨hconns, ih⟩
    | some e => simp [runDatasources, hrc]; exact hconns

theorem signOut_not_mem_runSites (oracle : PutOracle) (plan : UpdatePlan) :
    Event.signOut ∉ (runSites oracle plan).1 := by
  induction plan with
  | nil => simp [runSites]
  | cons p rest ih =>
    rcases p with ⟨url, se⟩
    have hds := signOut_not_mem_runDatasources oracle se.site_id se.site_name se.datasources
    rcases hrd : runDatasources oracle se.site_id se.site_name se.datasources with ⟨evs, err⟩
    rw [hrd] at hds
    cases err with
    | none => simp [runSites, hrd]; exact ⟨hds, ih⟩
    | some e => simp [runSites, hrd]; exact hds

theorem signInsOf_append (a b : List Event) :
    signInsOf (a ++ b) = signInsOf a ++ signInsOf b :=
  List.filterMap_append a b _

theorem signInsOf_connTraces (oracle : PutOracle) (sid sname dname dsid : String)
    (l : List ConnUpdate) :
    signInsOf (l.flatMap (connTrace oracle sid sname dname dsid)) = [] := by
  induction l with
  | nil => rfl
  | cons c cs ih =>
    rw [List.flatMap_cons, signInsOf_append, ih]
    rfl

theorem signInsOf_cons_print (x : LogLine) (l : List Event) :
    signInsOf (Event.print x :: l) = signInsOf l := rfl

theorem signInsOf_cons_signIn (u : String) (l : List Event) :
    signInsOf (Event.signIn u :: l) = u :: signInsOf l := rfl

theorem signInsOf_dsTraces (oracle : PutOracle) (sid sname : String)
    (dss : List (String × DsEntry)) :
    signInsOf (dss.flatMap (dsTrace oracle sid sname)) = [] := by
  induction dss with
  | nil => rfl
  | cons q rest ih =>
    rw [List.flatMap_cons, signInsOf_append, ih, dsTrace, signInsOf_connTraces]
    rfl

theorem signInsOf_siteTrace (oracle : PutOracle) (p : String × SiteEntry) :
    signInsOf (siteTrace oracle p) = [p.1] := by
  rw [siteTrace, signInsOf_cons_print, signInsOf_cons_signIn, signInsOf_dsTraces]

theorem signInsOf_siteTraces (oracle : PutOracle) (plan : UpdatePlan) :
    signInsOf (plan.flatMap (siteTrace oracle)) = plan.map Prod.fst := by
  induction plan with
  | nil => rfl
  | cons p rest ih =>
    rw [List.flatMap_cons, signInsOf_append, ih, signInsOf_siteTrace]
    rfl

theorem putsOf_append (a b : List Event) :
    putsOf (a ++ b) = putsOf a ++ putsOf b :=
  List.filter_append a b

theorem putsOf_connTraces (oracle : PutOracle) (sid sname dname dsid : String)
    (l : List ConnUpdate) :
    putsOf (l.flatMap (connTrace oracle sid sname dname dsid))
      = l.map (putEv sid dsid) := by
  induction l with
  | nil => rfl
  | cons c cs ih =>
    rw [List.flatMap_cons, putsOf_append, ih]
    rfl

theorem putsOf_dsTraces (oracle : PutOracle) (sid sname : String)
    (dss : List (String × DsEntry)) :
    putsOf (dss.flatMap (dsTrace oracle sid sname))
      = dss.flatMap (fun q => q.2.connections.map (putEv sid q.1)) := by
  induction dss with
  | nil => rfl
  | cons q rest ih =>
    rw [List.flatMap_cons, putsOf_append, ih, dsTrace, putsOf_connTraces,
      List.flatMap_cons]

theorem putsOf_cons_print (x : LogLine) (l : List Event) :
    putsOf (Event.print x :: l) = putsOf l := rfl

theorem putsOf_cons_signIn (u : String) (l : List Event) :
    putsOf (Event.signIn u :: l) = putsOf l := rfl

theorem putsOf_siteTrace (oracle : PutOracle) (p : String × SiteEntry) :
    putsOf (siteTrace oracle p)
      = p.2.datasources.flatMap (fun q => q.2.connections.map (putEv p.2.site_id q.1)) := by
  rw [siteTrace, putsOf_cons_print, putsOf_cons_signIn, putsOf_dsTraces]

theorem putsOf_siteTraces (oracle : PutOracle) (plan : UpdatePlan) :
    putsOf (plan.flatMap (siteTrace oracle)) = allPuts plan := by
  induction plan with
  | nil => rfl
  | cons p rest ih =>
    rw [List.flatMap_cons, putsOf_append, ih, putsOf_siteTrace]
    rfl

theorem signOut_not_mem_connTraces (oracle : PutOracle)
    (sid sname dname dsid : String) (l : List ConnUpdate) :
    Event.signOut ∉ l.flatMap (connTrace oracle sid sname dname dsid) := by
  induction l with
  | nil => simp
  | cons c cs ih =>
    rw [List.flatMap_cons]
    intro h
    rcases List.mem_append.mp h with h | h
    · simp [connTrace, putEv] at h
    · exact ih h

theorem signOut_not_mem_dsTraces (oracle : PutOracle) (sid sname : String)
    (dss : List (String × DsEntry)) :
    Event.signOut ∉ dss.flatMap (dsTrace oracle sid sname) := by
  induction dss with
  | nil => simp
  | cons q rest ih =>
    rw [List.flatMap_cons]
    intro h
    rcases List.mem_append.mp h with h | h
    · rw [dsTrace] at h
      exact signOut_not_mem_connTraces oracle sid sname q.2.datasource_name q.1
        q.2.connections h
    · exact ih h

/-- C2 counterexample: a run over one valid row issues its `put`
update but the trace contains no sign-out event at all — the site
token is never signed out, contradicting the claimed
`Authenticated -> Updating -> SignedOut` per-site sequence. -/
theorem dispatcher_no_signout_counterexample :
    putsOf (update_datasources_from_csv "datasources.csv" [sampleRow] happyOracle).1
      = [Event.put "site-1" "ds-1" "conn-1" "newuser" "secret" true] ∧
    Event.signOut ∉ (update_datasources_from_csv "datasources.csv" [sampleRow] happyOracle).1 := by
  constructor
  · rfl
  · decide

/-- C2 amended: each site processed by the dispatcher follows
`Authenticated -> Updating(n connections)`, in plan order: the run's
trace is exactly the concatenation of per-site blocks, and each site's
block starts with that site's header line and sign-in, followed by a
tail holding exactly that site's `put` updates and no further sign-in —
so a site's authentication precedes all of its updates.  But the
site-scoped token is never signed out: `update_datasources_from_csv`
contains no sign-out call anywhere, so every token is left active when
the run moves on or finishes. -/
theorem dispatcher_site_sequence_without_signout :
    (∀ (path : String) (rows : List Row) (oracle : PutOracle),
      Event.signOut ∉ (update_datasources_from_csv path rows oracle).1) ∧
    (∀ (plan : UpdatePlan) (oracle : PutOracle), ValidPlan plan →
      runSites oracle plan = (plan.flatMap (siteTrace oracle), none) ∧
      (∀ p ∈ plan, ∃ updates,
        siteTrace oracle (p : String × SiteEntry)
          = Event.print (LogLine.siteHeader p.2.site_name)
            :: Event.signIn p.1 :: updates ∧
        putsOf updates
          = p.2.datasources.flatMap (fun q => q.2.connections.map (putEv p.2.site_id q.1)) ∧
        signInsOf updates = [] ∧
        Event.signOut ∉ updates) ∧
      signInsOf (runSites oracle plan).1 = plan.map Prod.fst ∧
      putsOf (runSites oracle plan).1 = allPuts plan) := by
  constructor
  · intro path rows oracle
    unfold update_datasources_from_csv
    rcases hb : buildUpdates rows with e | plan
    · simp
    · have hs := signOut_not_mem_runSites oracle plan
      simp only []
      intro hmem
      rcases List.mem_cons.mp hmem with h | h
      · cases h
      · exact hs h
  · intro plan oracle hv
    have heq := runSites_eq oracle hv
    refine ⟨heq, ?_, ?_, ?_⟩
    · intro p hp
      refine ⟨p.2.datasources.flatMap (dsTrace oracle p.2.site_id p.2.site_name),
        rfl, ?_, ?_, ?_⟩
      · exact putsOf_dsTraces oracle p.2.site_id p.2.site_name p.2.datasources
      · exact signInsOf_dsTraces oracle p.2.site_id p.2.site_name p.2.datasources
      · exact signOut_not_mem_dsTraces oracle p.2.site_id p.2.site_name p.2.datasources
    · rw [heq]
      exact signInsOf_siteTraces oracle plan
    · rw [heq]
      exact putsOf_siteTraces oracle plan

theorem dispatcher_site_sequence_without_signout_witness :
    ValidPlan samplePlan ∧
    runSites happyOracle samplePlan = (samplePlan.flatMap (siteTrace happyOracle), none) ∧
    (∃ updates,
      siteTrace happyOracle ("", sampleSiteEntry)
        = Event.print (LogLine.siteHeader "Default") :: Event.signIn "" :: updates ∧
      signInsOf updates = [] ∧
      Event.signOut ∉ updates) ∧
    signInsOf (runSites happyOracle samplePlan).1 = samplePlan.map Prod.fst ∧
    putsOf (runSites happyOracle samplePlan).1 = allPuts samplePlan := by
  have h := dispatcher_site_sequence_without_signout.2 samplePlan happyOracle (by decide)
  obtain ⟨updates, h1, h2, h3, h4⟩ := h.2.1 ("", sampleSiteEntry) (by decide)
  exact ⟨by decide, h.1, ⟨updates, h1, h3, h4⟩, h.2.2⟩

/-- C5: for every update plan whose connection updates carry non-empty
passwords (the invariant `buildUpdates` establishes), the dispatcher
issues exactly one `put` per connection update of the plan — whatever
the per-call responses are — finishes without raising, and prints an
error line naming the data source and site for every call whose
response lacks the `connection` key.  A per-connection failure never
aborts the run. -/
theorem dispatch_attempts_every_update (plan : UpdatePlan) (oracle : PutOracle)
    (hv : ValidPlan plan) :
    putsOf (runSites oracle plan).1 = allPuts plan ∧
    (runSites oracle plan).2 = none ∧
    (∀ url se dsId de c, (url, se) ∈ plan → (dsId, de) ∈ se.datasources →
      c ∈ de.connections →
      (oracle se.site_id dsId c.connection_id).hasConnection = false →
      Event.print (LogLine.failure de.datasource_name se.site_name
          (oracle se.site_id dsId c.connection_id).bodyText)
        ∈ (runSites oracle plan).1) := by
  have heq := runSites_eq oracle hv
  refine ⟨?_, ?_, ?_⟩
  · rw [heq]; exact putsOf_siteTraces oracle plan
  · rw [heq]
  · intro url se dsId de c hsite hds hc hfail
    rw [heq]
    show _ ∈ plan.flatMap (siteTrace oracle)
    refine List.mem_flatMap.mpr ⟨(url, se), hsite, ?_⟩
    rw [siteTrace]
    refine List.mem_cons_of_mem _ (List.mem_cons_of_mem _ ?_)
    refine List.mem_flatMap.mpr ⟨(dsId, de), hds, ?_⟩
    rw [dsTrace]
    refine List.mem_flatMap.mpr ⟨c, hc, ?_⟩
    rw [connTrace, connLine]
    simp only [hfail, Bool.false_eq_true, if_false]
    exact List.mem_cons_of_mem _ (List.mem_cons_self _ _)

theorem dispatch_attempts_every_update_witness :
    ValidPlan samplePlan ∧
    putsOf (runSites failSecondOracle samplePlan).1 = allPuts samplePlan ∧
    (runSites failSecondOracle samplePlan).2 = none ∧
    Event.print (LogLine.failure "Sales" "Default" "bad request")
      ∈ (runSites failSecondOracle samplePlan).1 := by
  have h := dispatch_attempts_every_update samplePlan failSecondOracle (by decide)
  refine ⟨by decide, h.1, h.2.1, ?_⟩
  exact h.2.2 "" sampleSiteEntry "ds-1"
    { datasource_name := "Sales",
      connections :=
        [{ connection_id := "conn-1", username := "newuser", password := "secret" },
         { connection_id := "conn-2", username := "newuser2", password := "hunter2" }] }
    { connection_id := "conn-2", username := "newuser2", password := "hunter2" }
    (by decide) (by decide) (by decide) (by decide)

/-- C6: a site whose datasources listing omits the `datasource` key
contributes zero records and no exception — enumeration proceeds to
the remaining sites unchanged; likewise a data source whose
connections listing omits the `connection` key contributes zero
records.  (The embedded walker is total: no `ApiError` exists on this
path, matching the `in`-guards of lines 165 and 170.) -/
theorem missing_collection_keys_tolerated (env : WalkerEnv)
    (pre post : List (String × SiteInfo)) (sid : String) (site : SiteInfo)
    (hds : env.dsResp sid = none) :
    siteRecords env sid site = [] ∧
    build_datasources_records env (pre ++ (sid, site) :: post)
      = build_datasources_records env pre ++ build_datasources_records env post ∧
    (∀ (sid' : String) (site' : SiteInfo) (src : SourceInfo),
      env.connResp sid' src.id = none → sourceRecords env sid' site' src = []) := by
  have hsr : siteRecords env sid site = [] := by rw [siteRecords, hds]
  refine ⟨hsr, ?_, ?_⟩
  · simp [build_datasources_records, hsr]
  · intro sid' site' src hconn
    rw [sourceRecords, hconn]

theorem missing_collection_keys_tolerated_witness :
    sampleEnv.dsResp "empty-site" = none ∧
    siteRecords sampleEnv "empty-site" sampleSite = [] ∧
    build_datasources_records sampleEnv
        ([] ++ ("empty-site", sampleSite) :: [("s1", sampleSite)])
      = build_datasources_records sampleEnv []
        ++ build_datasources_records sampleEnv [("s1", sampleSite)] ∧
    sourceRecords sampleEnv "s1" sampleSite
      { id := "silent-ds", name := "NoConns", contentUrl := "nc" } = [] := by
  have h := missing_collection_keys_tolerated sampleEnv [] [("s1", sampleSite)]
    "empty-site" sampleSite (by decide)
  exact ⟨by decide, h.1, h.2.1, h.2.2 "s1" sampleSite _ (by decide)⟩

/-- C7 counterexample: a sign-in attempt the server rejects with HTTP
401 but whose body still carries a token is *accepted*:
`get_api_token` never consults the status code, so instead of failing
with any error it returns the token.  This falsifies the claim that a
non-2xx response makes `get_api_token` fail. -/
theorem signin_rejection_counterexample :
    rejectingWithToken.status = 401 ∧
    get_api_token "admin" "pw" none (fun _ => rejectingWithToken) = .ok "tok-123" :=
  ⟨rfl, rfl⟩

/-- C7 amended: `get_api_token` ignores the HTTP status entirely.  It
fails — with a `KeyError` from the dictionary accesses of
`r.json()['credentials']['token']`, not a dedicated `AuthError` —
exactly when the response body lacks the `credentials` or `token` key,
and returns the token whenever the body carries one, whatever the
status code. -/
theorem get_api_token_body_driven :
    (∀ (u pw : String) (cu : Option String) (body : SigninBody) (s1 s2 : Nat),
      get_api_token u pw cu (fun _ => { status := s1, body := body })
        = get_api_token u pw cu (fun _ => { status := s2, body := body })) ∧
    (∀ (u pw : String) (cu : Option String) (server : SigninPayload → SigninResponse),
      ((server (signinPayload u pw cu)).body.credentials = none →
        get_api_token u pw cu server = .error (.keyError "credentials")) ∧
      (∀ creds, (server (signinPayload u pw cu)).body.credentials = some creds →
        creds.token = none →
        get_api_token u pw cu server = .error (.keyError "token")) ∧
      (∀ creds t, (server (signinPayload u pw cu)).body.credentials = some creds →
        creds.token = some t →
        get_api_token u pw cu server = .ok t)) := by
  constructor
  · intro u pw cu body s1 s2
    rfl
  · intro u pw cu server
    refine ⟨?_, ?_, ?_⟩
    · intro h
      simp only [get_api_token]
      rw [h]
    · intro creds h ht
      simp only [get_api_token]
      simp [h, ht]
    · intro creds t h ht
      simp only [get_api_token]
      simp [h, ht]

theorem get_api_token_body_driven_witness :
    rejectingNoBody.body.credentials = none ∧
    get_api_token "admin" "pw" none (fun _ => rejectingNoBody)
      = .error (.keyError "credentials") :=
  ⟨rfl, (get_api_token_body_driven.2 "admin" "pw" none (fun _ => rejectingNoBody)).1 rfl⟩

/-- C8: for every non-empty password, the dispatcher's redaction
expression `password[0] + '...' + password[-1]` yields the first
character, an ellipsis, and the last character; a one-character
password repeats its only character on both sides. -/
theorem password_redaction (p : String) (h : p ≠ "") :
    redactPassword p
      = .ok (String.singleton (p.data.headD 'a') ++ "..."
          ++ String.singleton (p.data.getLastD 'a')) := by
  cases p with
  | mk data =>
    cases data with
    | nil => exact absurd rfl h
    | cons c cs =>
      rcases hg : (c :: cs).getLast? with _ | b
      · rw [List.getLast?_eq_none_iff] at hg; cases hg
      · simp [redactPassword, pyStrFirst, pyStrLast, hg, exceptBind_ok,
          List.getLastD_eq_getLast?]

theorem password_redaction_witness :
    redactPassword "secret" = .ok "s...t" ∧ redactPassword "x" = .ok "x...x" :=
  ⟨(password_redaction "secret" (by decide)).trans (by rfl),
   (password_redaction "x" (by decide)).trans (by rfl)⟩

end RestoreCredentials
